import Mathlib

/-!
# xemu-test: `test-xbe/main.c`

A shallow embedding of the single procedure `main` of `test-xbe/main.c` as a
small-step machine: one program point per statement of the source, the locals
`i`, `ret`, `f`, `buf` as fields of the machine state, and the sequence of
platform calls issued so far as a trace.

The platform calls themselves (`nxMountDrive`, `CreateDirectoryA`, `fopen`,
`fwrite`, `fclose`, ...) live outside the repository.  They are represented by
their documented contracts acting on a `World`; every result the platform is
free to choose (mount result, whether a directory can be created, the `FILE *`
returned, how many bytes a write transfers) is supplied by an `Env`.
-/

namespace XemuTest

/-! ## Data model -/

/-- The refresh argument of `XVideoSetMode`; `main` passes the header constant
`REFRESH_DEFAULT`, kept symbolic here. -/
inductive Refresh where
  | REFRESH_DEFAULT
  deriving DecidableEq, Repr

/-- One platform call issued by `main`, with the arguments of the call.
Strings are the C literals of the source; `f` is the `FILE *` value passed and
a pointer argument `NULL` is `0`. -/
inductive Effect where
  | XVideoSetMode (width height bpp : Nat) (refresh : Refresh)
  | debugPrint (msg : String)
  | Sleep (ms : Nat)
  | nxMountDrive (driveLetter : Char) (path : String)
  | CreateDirectoryA (path : String) (securityAttributes : Nat)
  | fopen (path mode : String)
  | fwrite (buf : List Nat) (size count : Nat) (f : Nat)
  | fclose (f : Nat)
  | HalInitiateShutdown
  deriving DecidableEq, Repr

/-- What survives a power cycle: the directories and the files (as byte lists)
of the storage medium, by path. -/
structure Disk where
  dirs : String → Bool
  files : String → Option (List Nat)

/-- The platform state the calls of `main` act on: the disk, the drive letters
bound so far, and the open streams (`FILE *` value and the path it writes). -/
structure World where
  disk : Disk
  mounts : List (Char × String)
  streams : List (Nat × String)

/-- The choices left to the platform during one run. -/
structure Env where
  /-- result of `nxMountDrive` -/
  mountRet : Bool
  /-- whether `CreateDirectoryA` can create a directory that is absent -/
  mkdirOk : Bool
  /-- the `FILE *` returned by `fopen`; `0` is `NULL` -/
  fopenRet : Nat
  /-- how many bytes the medium accepts from `fwrite` -/
  written : Nat

/-! ## Platform contracts -/

/-- The bytes of a C string literal (ASCII), without the terminating NUL. -/
def cstr (s : String) : List Nat := s.toList.map Char.toNat

/-- C `strlen`: the number of bytes before the first NUL. -/
def strlen (buf : List Nat) : Nat := (buf.takeWhile (fun b => b != 0)).length

/-- Replace the content stored at `path`. -/
def Disk.setFile (d : Disk) (path : String) (content : Option (List Nat)) : Disk :=
  { d with files := fun p => if p = path then content else d.files p }

/-- Platform call `nxMountDrive`: on success the drive letter is bound to the
device path; on failure nothing changes. -/
def nxMountDrive (env : Env) (w : World) (driveLetter : Char) (path : String) : World × Bool :=
  if env.mountRet then ({ w with mounts := (driveLetter, path) :: w.mounts }, true)
  else (w, false)

/-- Platform call `CreateDirectoryA`: fails without change when the directory
is already there or cannot be created, creates it otherwise. The security
attributes play no part. -/
def CreateDirectoryA (env : Env) (w : World) (path : String) (_securityAttributes : Nat) :
    World × Bool :=
  if w.disk.dirs path then (w, false)
  else if env.mkdirOk then
    ({ w with disk := { w.disk with dirs := fun p => if p = path then true else w.disk.dirs p } },
      true)
  else (w, false)

/-- Platform call `fopen`: `NULL` (`0`) and no change on failure; on success a
stream on `path` is registered and, in mode `"w"`, the file is created or
truncated to length zero. -/
def fopen (env : Env) (w : World) (path mode : String) : World × Nat :=
  if env.fopenRet = 0 then (w, 0)
  else
    let disk := if mode = "w" then w.disk.setFile path (some []) else w.disk
    ({ w with disk := disk, streams := (env.fopenRet, path) :: w.streams }, env.fopenRet)

/-- Platform call `fwrite`: of the `size * count` bytes requested, as many as
the medium accepts are appended to the file of stream `f`; the result is the
number of complete items transferred. -/
def fwrite (env : Env) (w : World) (buf : List Nat) (size count f : Nat) : World × Nat :=
  let n := min env.written (size * count)
  match w.streams.lookup f with
  | none => (w, 0)
  | some path =>
    ({ w with disk := w.disk.setFile path (some ((w.disk.files path).getD [] ++ buf.take n)) },
      n / size)

/-- Platform call `fclose`: the stream is released. -/
def fclose (w : World) (f : Nat) : World × Int :=
  ({ w with streams := w.streams.filter (fun e => e.1 != f) }, 0)

/-! ## The procedure `main` -/

/-- Program points of `main`, named by source line. -/
inductive PC where
  | L11_XVideoSetMode
  | L13_for_init
  | L13_for_cond
  | L14_debugPrint
  | L15_Sleep
  | L13_for_incr
  | L18_nxMountDrive
  | L19_if_not_ret
  | L20_debugPrint
  | L21_goto_shutdown
  | L24_CreateDirectoryA
  | L26_fopen
  | L27_if_not_f
  | L28_goto_shutdown
  | L31_buf
  | L32_fwrite
  | L33_fclose
  | L36_HalInitiateShutdown
  | L37_while
  | L38_Sleep
  | L41_return
  | returned
  deriving DecidableEq, Repr

/-- Machine state: program point, the locals of `main`, the platform state,
the calls issued so far (oldest first) and the value returned, if any. -/
structure State where
  pc : PC
  i : Int
  ret : Bool
  f : Nat
  buf : List Nat
  world : World
  trace : List Effect
  exitCode : Option Int

/-- Entry into `main` on a machine booted from disk `d`: nothing mounted, no
stream open, nothing called yet. -/
def boot (d : Disk) : State :=
  { pc := .L11_XVideoSetMode, i := 0, ret := false, f := 0, buf := [],
    world := { disk := d, mounts := [], streams := [] }, trace := [], exitCode := none }

/-- Record a call in the trace and continue at `next`. -/
def State.call (s : State) (e : Effect) (next : PC) : State :=
  { s with trace := s.trace ++ [e], pc := next }

/-- One statement of `main`. -/
def step (env : Env) (s : State) : State :=
  match s.pc with
  | .L11_XVideoSetMode =>
    s.call (.XVideoSetMode 640 480 32 .REFRESH_DEFAULT) .L13_for_init
  | .L13_for_init => { s with i := 0, pc := .L13_for_cond }
  | .L13_for_cond =>
    if s.i < 2 then { s with pc := .L14_debugPrint } else { s with pc := .L18_nxMountDrive }
  | .L14_debugPrint => s.call (.debugPrint "Hello nxdk!\n") .L15_Sleep
  | .L15_Sleep => s.call (.Sleep 500) .L13_for_incr
  | .L13_for_incr => { s with i := s.i + 1, pc := .L13_for_cond }
  | .L18_nxMountDrive =>
    let r := nxMountDrive env s.world 'C' "\\Device\\Harddisk0\\Partition2\\"
    { s with world := r.1, ret := r.2 }.call
      (.nxMountDrive 'C' "\\Device\\Harddisk0\\Partition2\\") .L19_if_not_ret
  | .L19_if_not_ret =>
    if !s.ret then { s with pc := .L20_debugPrint } else { s with pc := .L24_CreateDirectoryA }
  | .L20_debugPrint => s.call (.debugPrint "Failed to mount C: drive!\n") .L21_goto_shutdown
  | .L21_goto_shutdown => { s with pc := .L36_HalInitiateShutdown }
  | .L24_CreateDirectoryA =>
    let r := CreateDirectoryA env s.world "C:\\results" 0
    { s with world := r.1 }.call (.CreateDirectoryA "C:\\results" 0) .L26_fopen
  | .L26_fopen =>
    let r := fopen env s.world "C:\\results\\results.txt" "w"
    { s with world := r.1, f := r.2 }.call
      (.fopen "C:\\results\\results.txt" "w") .L27_if_not_f
  | .L27_if_not_f =>
    if s.f = 0 then { s with pc := .L28_goto_shutdown } else { s with pc := .L31_buf }
  | .L28_goto_shutdown => { s with pc := .L36_HalInitiateShutdown }
  | .L31_buf => { s with buf := cstr "Success", pc := .L32_fwrite }
  | .L32_fwrite =>
    let r := fwrite env s.world s.buf (strlen s.buf) 1 s.f
    { s with world := r.1 }.call (.fwrite s.buf (strlen s.buf) 1 s.f) .L33_fclose
  | .L33_fclose =>
    let r := fclose s.world s.f
    { s with world := r.1 }.call (.fclose s.f) .L36_HalInitiateShutdown
  | .L36_HalInitiateShutdown => s.call .HalInitiateShutdown .L37_while
  | .L37_while =>
    if (1 : Int) ≠ 0 then { s with pc := .L38_Sleep } else { s with pc := .L41_return }
  | .L38_Sleep => s.call (.Sleep 2000) .L37_while
  | .L41_return => { s with exitCode := some 0, pc := .returned }
  | .returned => s

/-- The state after `n` statements, from `s`. -/
def run (env : Env) : Nat → State → State
  | 0, s => s
  | n + 1, s => run env n (step env s)

/-- Running `main` for `n` statements on a machine booted from disk `d`. -/
def main (env : Env) (d : Disk) (n : Nat) : State := run env n (boot d)

/-- The number of statements `main` executes up to and including the shutdown
request, by outcome of the mount and of the open. -/
def shutdownAt (env : Env) : Nat :=
  if env.mountRet then (if env.fopenRet = 0 then 18 else 20) else 16

/-- The calls common to every run, up to and including the mount. -/
def preamble : List Effect :=
  [.XVideoSetMode 640 480 32 .REFRESH_DEFAULT,
   .debugPrint "Hello nxdk!\n", .Sleep 500,
   .debugPrint "Hello nxdk!\n", .Sleep 500,
   .nxMountDrive 'C' "\\Device\\Harddisk0\\Partition2\\"]

/-- The calls that precede the shutdown request, as a function of the mount
result and of the `FILE *` returned by the open. -/
def shape (mountRet : Bool) (fopenRet : Nat) : List Effect :=
  if mountRet then
    if fopenRet = 0 then
      preamble ++ [.CreateDirectoryA "C:\\results" 0, .fopen "C:\\results\\results.txt" "w"]
    else
      preamble ++ [.CreateDirectoryA "C:\\results" 0, .fopen "C:\\results\\results.txt" "w",
        .fwrite [83, 117, 99, 99, 101, 115, 115] 7 1 fopenRet, .fclose fopenRet]
  else preamble ++ [.debugPrint "Failed to mount C: drive!\n"]

/-- Calls that touch the filesystem. -/
def Effect.isFilesystemCall : Effect → Bool
  | .CreateDirectoryA _ _ => true
  | .fopen _ _ => true
  | .fwrite _ _ _ _ => true
  | .fclose _ => true
  | _ => false

/-- Calls that touch storage: the mount and the filesystem calls. -/
def Effect.isStorageCall : Effect → Bool
  | .nxMountDrive _ _ => true
  | e => e.isFilesystemCall

/-- Calls to `nxMountDrive`, with any arguments. -/
def Effect.isMount : Effect → Bool
  | .nxMountDrive _ _ => true
  | _ => false

/-- Calls to `debugPrint`, with any message. -/
def Effect.isDebugPrint : Effect → Bool
  | .debugPrint _ => true
  | _ => false

/-- Calls to `fwrite`, with any arguments. -/
def Effect.isFwrite : Effect → Bool
  | .fwrite _ _ _ _ => true
  | _ => false

/-- Calls to `fclose`, with any argument. -/
def Effect.isFclose : Effect → Bool
  | .fclose _ => true
  | _ => false

/-- The first five calls of every complete run: video mode and the two
liveness messages, each with its delay. -/
def liveness : List Effect :=
  [.XVideoSetMode 640 480 32 .REFRESH_DEFAULT,
   .debugPrint "Hello nxdk!\n", .Sleep 500,
   .debugPrint "Hello nxdk!\n", .Sleep 500]

/-! ## Inputs used to exercise the theorems -/

/-- A disk on which the result file already exists with other content and the
results directory is absent. -/
def staleDisk : Disk :=
  { dirs := fun _ => false
    files := fun p => if p = "C:\\results\\results.txt" then some [79, 108, 100, 10] else none }

/-- A run on which every platform call succeeds. -/
def goodEnv : Env := { mountRet := true, mkdirOk := true, fopenRet := 4096, written := 7 }

/-- A run on which the mount fails. -/
def noMountEnv : Env := { mountRet := false, mkdirOk := true, fopenRet := 4096, written := 7 }

/-- A run on which the mount succeeds and the open fails. -/
def noOpenEnv : Env := { mountRet := true, mkdirOk := true, fopenRet := 0, written := 7 }

/-- A second run on which every platform call but the directory creation
succeeds. -/
def secondEnv : Env := { mountRet := true, mkdirOk := false, fopenRet := 4096, written := 7 }

/-! ## Execution lemmas -/

theorem run_add (env : Env) (m n : Nat) (s : State) :
    run env (m + n) s = run env n (run env m s) := by
  induction m generalizing s with
  | zero => simp [run]
  | succ m ih => rw [Nat.succ_add]; simp only [run]; exact ih _

theorem run_succ (env : Env) (n : Nat) (s : State) :
    run env (n + 1) s = step env (run env n s) := by
  rw [run_add]; rfl

/-- A statement only ever extends the trace. -/
theorem step_trace (env : Env) (s : State) : s.trace <+: (step env s).trace := by
  unfold step
  split <;> (try split) <;> simp [State.call]

theorem run_trace_mono (env : Env) (n m : Nat) (s : State) :
    (run env n s).trace <+: (run env (n + m) s).trace := by
  induction m with
  | zero => exact List.prefix_refl _
  | succ m ih =>
    rw [← Nat.add_assoc, run_succ]
    exact ih.trans (step_trace env _)

theorem main_trace_mono (env : Env) (d : Disk) {n m : Nat} (h : n ≤ m) :
    (main env d n).trace <+: (main env d m).trace := by
  obtain ⟨k, rfl⟩ := Nat.exists_eq_add_of_le h
  exact run_trace_mono env n k (boot d)

/-- Two statements of the idle loop: one more `Sleep(2000)`, nothing else. -/
theorem idle_two (env : Env) (s : State) (h : s.pc = .L37_while) :
    step env (step env s) = { s with trace := s.trace ++ [.Sleep 2000] } := by
  cases s; simp only at h; subst h; simp [step, State.call]

theorem idle_even (env : Env) (k : Nat) (s : State) (h : s.pc = .L37_while) :
    run env (2 * k) s = { s with trace := s.trace ++ List.replicate k (.Sleep 2000) } := by
  induction k generalizing s with
  | zero => simp [run]
  | succ k ih =>
    have e : 2 * (k + 1) = 2 + 2 * k := by ring
    rw [e, run_add]
    have h2 : run env 2 s = step env (step env s) := rfl
    rw [h2, idle_two env s h, ih _ (by simpa using h)]
    simp [List.replicate_succ]

theorem idle_odd (env : Env) (k : Nat) (s : State) (h : s.pc = .L37_while) :
    run env (2 * k + 1) s =
      { s with pc := .L38_Sleep, trace := s.trace ++ List.replicate k (.Sleep 2000) } := by
  rw [run_succ, idle_even env k s h]
  simp [step, h]

/-- After the shutdown request the machine is at the head of the idle loop. -/
theorem main_shutdown_pc (env : Env) (d : Disk) :
    (main env d (shutdownAt env)).pc = .L37_while := by
  obtain ⟨m, k, p, w⟩ := env
  cases m <;> cases p <;>
    simp [shutdownAt, main, run, step, boot, State.call, nxMountDrive, fopen]

/-- The calls issued up to and including the shutdown request. -/
theorem main_shutdown_trace (env : Env) (d : Disk) :
    (main env d (shutdownAt env)).trace =
      shape env.mountRet env.fopenRet ++ [.HalInitiateShutdown] := by
  obtain ⟨m, k, p, w⟩ := env
  cases m <;> cases p <;>
    simp [shutdownAt, main, run, step, boot, State.call, nxMountDrive, fopen, shape, preamble,
      strlen, cstr]

/-- The calls issued when the shutdown request is about to be made. -/
theorem main_before_trace (env : Env) (d : Disk) :
    (main env d (shutdownAt env - 1)).trace = shape env.mountRet env.fopenRet := by
  obtain ⟨m, k, p, w⟩ := env
  cases m <;> cases p <;>
    simp [shutdownAt, main, run, step, boot, State.call, nxMountDrive, fopen, shape, preamble,
      strlen, cstr]

theorem main_before_pc (env : Env) (d : Disk) :
    (main env d (shutdownAt env - 1)).pc = .L36_HalInitiateShutdown := by
  obtain ⟨m, k, p, w⟩ := env
  cases m <;> cases p <;>
    simp [shutdownAt, main, run, step, boot, State.call, nxMountDrive, fopen]

/-- From the shutdown request on, only the program point and the number of
idle delays change. -/
theorem main_after (env : Env) (d : Disk) (m : Nat) :
    main env d (shutdownAt env + m) =
      { main env d (shutdownAt env) with
        pc := if m % 2 = 0 then .L37_while else .L38_Sleep
        trace := (main env d (shutdownAt env)).trace ++ List.replicate (m / 2) (.Sleep 2000) } := by
  have hpc := main_shutdown_pc env d
  unfold main at hpc ⊢
  rw [run_add]
  generalize run env (shutdownAt env) (boot d) = s at hpc ⊢
  rcases Nat.even_or_odd' m with ⟨k, rfl | rfl⟩
  · rw [idle_even env k s hpc]
    cases s; simp only at hpc; subst hpc; simp
  · rw [idle_odd env k s hpc]
    have h1 : (2 * k + 1) % 2 = 1 := by omega
    have h2 : (2 * k + 1) / 2 = k := by omega
    simp [h1, h2]

theorem main_after_trace (env : Env) (d : Disk) (m : Nat) :
    (main env d (shutdownAt env + m)).trace =
      shape env.mountRet env.fopenRet ++
        .HalInitiateShutdown :: List.replicate (m / 2) (.Sleep 2000) := by
  rw [main_after]
  simp [main_shutdown_trace env d]

theorem main_after_world (env : Env) (d : Disk) (m : Nat) :
    (main env d (shutdownAt env + m)).world = (main env d (shutdownAt env)).world := by
  rw [main_after]

/-- Every finite trace of `main` is an initial segment of the calls up to the
shutdown request followed by idle delays. -/
theorem main_trace_le (env : Env) (d : Disk) (n : Nat) :
    (main env d n).trace <+:
      shape env.mountRet env.fopenRet ++
        .HalInitiateShutdown :: List.replicate (n / 2) (.Sleep 2000) := by
  have h := main_trace_mono env d (Nat.le_add_left n (shutdownAt env))
  rw [main_after_trace] at h
  exact h

/-- Before the shutdown request is made, the trace is an initial segment of
the calls that precede it. -/
theorem main_trace_early (env : Env) (d : Disk) {n : Nat} (h : n < shutdownAt env) :
    (main env d n).trace <+: shape env.mountRet env.fopenRet := by
  have h1 := main_trace_mono env d (Nat.le_sub_one_of_lt h)
  rw [main_before_trace] at h1
  exact h1

/-- The statement `return 0` is never reached. -/
theorem step_alive (env : Env) (s : State)
    (h : s.pc ≠ .L41_return ∧ s.pc ≠ .returned ∧ s.exitCode = none) :
    (step env s).pc ≠ .L41_return ∧ (step env s).pc ≠ .returned ∧
      (step env s).exitCode = none := by
  obtain ⟨h1, h2, h3⟩ := h
  unfold step
  split <;> (try split) <;> simp_all [State.call]

theorem main_alive (env : Env) (d : Disk) (n : Nat) :
    (main env d n).pc ≠ .L41_return ∧ (main env d n).pc ≠ .returned ∧
      (main env d n).exitCode = none := by
  induction n with
  | zero => simp [main, run, boot]
  | succ n ih =>
    unfold main at ih ⊢
    rw [run_succ]
    exact step_alive env _ ih

theorem shutdown_not_mem_shape (mountRet : Bool) (fopenRet : Nat) :
    Effect.HalInitiateShutdown ∉ shape mountRet fopenRet := by
  unfold shape preamble
  split <;> (try split) <;> simp

/-- The shutdown request is neither made nor about to be made before statement
`shutdownAt env - 1`. -/
theorem shutdown_reached (env : Env) (d : Disk) (n : Nat)
    (h : (main env d n).pc = .L36_HalInitiateShutdown ∨
      Effect.HalInitiateShutdown ∈ (main env d n).trace) :
    shutdownAt env - 1 ≤ n := by
  by_contra hn
  have hlt : n < shutdownAt env - 1 := by omega
  clear hn
  rcases h with h | h
  · revert h
    obtain ⟨m, k, p, w⟩ := env
    cases m <;> cases p <;> simp only [shutdownAt] at hlt <;> simp at hlt <;>
      interval_cases n <;>
      simp [main, run, step, boot, State.call, nxMountDrive, fopen]
  · have hp := main_trace_early env d (show n < shutdownAt env by omega)
    exact shutdown_not_mem_shape _ _ (hp.subset h)

/-- World of the run whose mount and open succeed, from the shutdown request
on: the result file holds the bytes the medium accepted and no stream is open. -/
theorem success_world (env : Env) (d : Disk) (hmount : env.mountRet = true)
    (hopen : env.fopenRet ≠ 0) (n : Nat) (hn : 19 ≤ n) :
    (main env d n).world.disk.files "C:\\results\\results.txt" =
        some ((cstr "Success").take (min env.written 7)) ∧
      (main env d n).world.streams = [] := by
  obtain ⟨m, k, p, w⟩ := env
  simp only at hmount hopen
  subst hmount
  have h19 : (main ⟨true, k, p, w⟩ d 19).world.disk.files "C:\\results\\results.txt" =
        some ((cstr "Success").take (min w 7)) ∧
      (main ⟨true, k, p, w⟩ d 19).world.streams = [] := by
    simp [main, run, step, boot, State.call, nxMountDrive, fopen, fwrite, fclose,
      CreateDirectoryA, Disk.setFile, strlen, cstr, hopen, List.lookup]
    split <;> (try split) <;> simp [hopen, Disk.setFile]
  have h20 : (main ⟨true, k, p, w⟩ d 20).world = (main ⟨true, k, p, w⟩ d 19).world := by
    simp [main, run, step, boot, State.call, nxMountDrive, fopen, hopen]
  rcases Nat.lt_or_ge n 20 with h | h
  · obtain rfl : n = 19 := by omega
    exact h19
  · obtain ⟨j, rfl⟩ := Nat.exists_eq_add_of_le h
    have e : shutdownAt ⟨true, k, p, w⟩ = 20 := by simp [shutdownAt, hopen]
    have := main_after_world ⟨true, k, p, w⟩ d j
    rw [e] at this
    rw [this, h20]
    exact h19

/-- World of the run whose mount fails: nothing ever changes. -/
theorem mount_fail_world (env : Env) (d : Disk) (hmount : env.mountRet = false) (n : Nat) :
    (main env d n).world = (boot d).world := by
  obtain ⟨m, k, p, w⟩ := env
  simp only at hmount
  subst hmount
  rcases Nat.lt_or_ge n 16 with h | h
  · interval_cases n <;> simp [main, run, step, boot, State.call, nxMountDrive]
  · obtain ⟨j, rfl⟩ := Nat.exists_eq_add_of_le h
    have e : shutdownAt ⟨false, k, p, w⟩ = 16 := by simp [shutdownAt]
    have := main_after_world ⟨false, k, p, w⟩ d j
    rw [e] at this
    rw [this]
    simp [main, run, step, boot, State.call, nxMountDrive]

/-- World of the run whose mount succeeds and whose open fails: no file is
touched, no stream is ever open, and the directory is there afterwards exactly
when it was there before or could be created. -/
theorem open_fail_world (env : Env) (d : Disk) (hmount : env.mountRet = true)
    (hopen : env.fopenRet = 0) (n : Nat) :
    (main env d n).world.disk.files = d.files ∧ (main env d n).world.streams = [] ∧
      (14 ≤ n → (main env d n).world.disk.dirs "C:\\results" =
        (d.dirs "C:\\results" || env.mkdirOk)) := by
  obtain ⟨m, k, p, w⟩ := env
  simp only at hmount hopen
  subst hmount hopen
  have key : ∀ n, n ≤ 18 →
      (main ⟨true, k, 0, w⟩ d n).world.disk.files = d.files ∧
      (main ⟨true, k, 0, w⟩ d n).world.streams = [] ∧
      (14 ≤ n → (main ⟨true, k, 0, w⟩ d n).world.disk.dirs "C:\\results" =
        (d.dirs "C:\\results" || k)) := by
    intro n hn
    interval_cases n <;>
      simp [main, run, step, boot, State.call, nxMountDrive, fopen, CreateDirectoryA] <;>
      cases hd : d.dirs "C:\\results" <;> cases k <;> simp [hd]
  rcases Nat.lt_or_ge n 18 with h | h
  · exact key n (by omega)
  · obtain ⟨j, rfl⟩ := Nat.exists_eq_add_of_le h
    have e : shutdownAt ⟨true, k, 0, w⟩ = 18 := by simp [shutdownAt]
    have := main_after_world ⟨true, k, 0, w⟩ d j
    rw [e] at this
    rw [this]
    have h18 := key 18 (le_refl _)
    exact ⟨h18.1, h18.2.1, fun _ => h18.2.2 (by omega)⟩

/-- Members of a trace are among the calls up to the shutdown request, the
request itself and idle delays. -/
theorem mem_trace (env : Env) (d : Disk) (n : Nat) (e : Effect)
    (h : e ∈ (main env d n).trace) :
    e ∈ shape env.mountRet env.fopenRet ∨ e = .HalInitiateShutdown ∨ e = .Sleep 2000 := by
  have h1 := (main_trace_le env d n).subset h
  simp only [List.mem_append, List.mem_cons] at h1
  rcases h1 with h1 | h1 | h1
  · exact Or.inl h1
  · exact Or.inr (Or.inl h1)
  · exact Or.inr (Or.inr (List.eq_of_mem_replicate h1))

/-- A property of the calls up to the shutdown request, of the request and of
the idle delay holds of every call in every trace. -/
theorem trace_forall (env : Env) (d : Disk) (n : Nat) (P : Effect → Prop)
    (hs : ∀ e ∈ shape env.mountRet env.fopenRet, P e)
    (h1 : P .HalInitiateShutdown) (h2 : P (.Sleep 2000)) :
    ∀ e ∈ (main env d n).trace, P e := by
  intro e he
  rcases mem_trace env d n e he with h | h | h
  · exact hs e h
  · exact h ▸ h1
  · exact h ▸ h2

/-- An entry of an initial segment is the entry of the whole list there. -/
theorem getElem?_of_initial {t l : List Effect} (h : t <+: l) {j : Nat} {e : Effect}
    (hj : t[j]? = some e) : l[j]? = some e := by
  obtain ⟨r, rfl⟩ := h
  obtain ⟨hlt, _⟩ := List.getElem?_eq_some.mp hj
  rw [List.getElem?_append_left hlt]
  exact hj

theorem getElem?_initial_eq {t l : List Effect} (h : t <+: l) {j : Nat}
    (hj : j < t.length) : t[j]? = l[j]? := by
  obtain ⟨r, rfl⟩ := h
  rw [List.getElem?_append_left hj]

theorem shape_split (mountRet : Bool) (fopenRet : Nat) :
    shape mountRet fopenRet = liveness ++ (shape mountRet fopenRet).drop 5 := by
  unfold shape preamble liveness
  split <;> (try split) <;> simp

theorem hello_not_mem_rest (mountRet : Bool) (fopenRet k : Nat) :
    Effect.debugPrint "Hello nxdk!\n" ∉
      (shape mountRet fopenRet).drop 5 ++
        .HalInitiateShutdown :: List.replicate k (.Sleep 2000) := by
  unfold shape preamble
  split <;> (try split) <;> simp

theorem storage_mem_liveness (e : Effect) (h : e ∈ liveness) : e.isStorageCall = false := by
  simp only [liveness, List.mem_cons, List.mem_singleton, List.not_mem_nil, or_false] at h
  rcases h with h | h | h | h | h <;> subst h <;> rfl

/-- After nine statements the five opening calls have been issued. -/
theorem liveness_le (env : Env) (d : Disk) {n : Nat} (h : 9 ≤ n) :
    liveness <+: (main env d n).trace := by
  have h9 : (main env d 9).trace = liveness := by
    simp [main, run, step, boot, State.call, liveness]
  rw [← h9]
  exact main_trace_mono env d h

/-- Every finite trace is an initial segment of the five opening calls followed
by calls among which the liveness message does not occur. -/
theorem main_trace_le_split (env : Env) (d : Disk) (n : Nat) :
    (main env d n).trace <+:
      liveness ++ ((shape env.mountRet env.fopenRet).drop 5 ++
        .HalInitiateShutdown :: List.replicate (n / 2) (.Sleep 2000)) := by
  have h := main_trace_le env d n
  rw [shape_split, List.append_assoc] at h
  exact h

/-- A list splits in one way only around a call that occurs neither before nor
after the split point. -/
theorem split_unique {B R pre post : List Effect} {x : Effect} (hB : x ∉ B) (hR : x ∉ R)
    (h : pre ++ x :: post = B ++ x :: R) : pre = B ∧ post = R := by
  rcases List.append_eq_append_iff.mp h with ⟨a, hBa, ha⟩ | ⟨c, hpc, hc⟩
  · cases a with
    | nil =>
      simp only [List.nil_append, List.cons.injEq, true_and] at ha
      exact ⟨by simpa using hBa.symm, ha⟩
    | cons y a =>
      simp only [List.cons_append, List.cons.injEq] at ha
      exact absurd (by rw [hBa, ← ha.1]; simp) hB
  · cases c with
    | nil =>
      simp only [List.nil_append, List.cons.injEq, true_and] at hc
      exact ⟨by simpa using hpc, hc.symm⟩
    | cons y c =>
      simp only [List.cons_append, List.cons.injEq] at hc
      exact absurd (by rw [hc.2]; simp) hR

theorem shutdown_count_shape (mountRet : Bool) (fopenRet : Nat) :
    (shape mountRet fopenRet).count .HalInitiateShutdown = 0 :=
  List.count_eq_zero_of_not_mem (shutdown_not_mem_shape _ _)

theorem shape_length_le (mountRet : Bool) (fopenRet : Nat) :
    (shape mountRet fopenRet).length ≤ 10 := by
  unfold shape preamble
  split <;> (try split) <;> simp

/-- The trace depends on the platform only through the mount result and the
stream returned by the open: not on the disk, on the outcome of the directory
creation or on the bytes the write transfers. -/
theorem trace_eq_of_same (env env' : Env) (d d' : Disk)
    (hm : env'.mountRet = env.mountRet) (hp : env'.fopenRet = env.fopenRet) (n : Nat) :
    (main env' d' n).trace = (main env d n).trace := by
  have hN : shutdownAt env' = shutdownAt env := by simp [shutdownAt, hm, hp]
  rcases Nat.lt_or_ge n (shutdownAt env) with h | h
  · obtain ⟨m, k, p, w⟩ := env
    obtain ⟨m', k', p', w'⟩ := env'
    simp only at hm hp
    subst hm hp
    clear hN
    cases m' <;> cases p' <;> simp only [shutdownAt] at h <;> simp at h <;>
      interval_cases n <;>
      simp [main, run, step, boot, State.call, nxMountDrive, fopen]
  · obtain ⟨j, rfl⟩ := Nat.exists_eq_add_of_le h
    rw [main_after_trace env d j, ← hN, main_after_trace env' d' j, hm, hp]

/-- Statement 13 of a run whose mount succeeds is the directory creation, on
the initial disk. -/
theorem at_CreateDirectoryA (env : Env) (d : Disk) (hmount : env.mountRet = true) :
    (main env d 13).pc = .L24_CreateDirectoryA ∧ (main env d 13).world.disk = d := by
  obtain ⟨m, k, p, w⟩ := env
  simp only at hmount
  subst hmount
  simp [main, run, step, boot, State.call, nxMountDrive]

/-- The directory creation only ever adds the directory. -/
theorem success_dirs (env : Env) (d : Disk) (hmount : env.mountRet = true)
    (hopen : env.fopenRet ≠ 0) :
    (main env d 20).world.disk.dirs "C:\\results" = (d.dirs "C:\\results" || env.mkdirOk) := by
  obtain ⟨m, k, p, w⟩ := env
  simp only at hmount hopen
  subst hmount
  simp [main, run, step, boot, State.call, nxMountDrive, fopen, fwrite, fclose,
    CreateDirectoryA, Disk.setFile, strlen, cstr, hopen, List.lookup]
  cases hd : d.dirs "C:\\results" <;> cases k <;> simp [hd, Disk.setFile]

theorem fclose_count_shape (mountRet : Bool) (fopenRet : Nat) :
    (shape mountRet fopenRet).countP Effect.isFclose =
      if mountRet = true ∧ fopenRet ≠ 0 then 1 else 0 := by
  unfold shape preamble
  cases mountRet <;> by_cases h : fopenRet = 0 <;>
    simp [h, List.countP_cons, Effect.isFclose]

theorem fwrite_count_shape (mountRet : Bool) (fopenRet : Nat) :
    (shape mountRet fopenRet).countP Effect.isFwrite =
      if mountRet = true ∧ fopenRet ≠ 0 then 1 else 0 := by
  unfold shape preamble
  cases mountRet <;> by_cases h : fopenRet = 0 <;>
    simp [h, List.countP_cons, Effect.isFwrite]

/-- No stream is open when the shutdown request is about to be made, nor at
any time after. -/
theorem streams_closed (env : Env) (d : Disk) (n : Nat) (hn : shutdownAt env - 1 ≤ n) :
    (main env d n).world.streams = [] := by
  cases hm : env.mountRet
  · rw [mount_fail_world env d hm n]
    rfl
  · by_cases hp : env.fopenRet = 0
    · exact (open_fail_world env d hm hp n).2.1
    · have e : shutdownAt env = 20 := by simp [shutdownAt, hm, hp]
      exact (success_world env d hm hp n (by omega)).2

theorem shape_split_mount (mountRet : Bool) (fopenRet : Nat) :
    shape mountRet fopenRet = preamble ++ (shape mountRet fopenRet).drop 6 := by
  unfold shape preamble
  split <;> (try split) <;> simp

theorem mount_not_mem_rest (mountRet : Bool) (fopenRet k : Nat) :
    ∀ e ∈ (shape mountRet fopenRet).drop 6 ++
        .HalInitiateShutdown :: List.replicate k (.Sleep 2000), e.isMount = false := by
  unfold shape preamble
  split <;> (try split) <;> simp [Effect.isMount]

theorem filesystem_mem_preamble (e : Effect) (h : e ∈ preamble) :
    e.isFilesystemCall = false := by
  simp only [preamble, List.mem_cons, List.mem_singleton, List.not_mem_nil, or_false] at h
  rcases h with h | h | h | h | h | h <;> subst h <;> rfl

/-- After twelve statements the mount has been requested. -/
theorem preamble_le (env : Env) (d : Disk) {n : Nat} (h : 12 ≤ n) :
    preamble <+: (main env d n).trace := by
  have h12 : (main env d 12).trace = preamble := by
    simp [main, run, step, boot, State.call, preamble]
  rw [← h12]
  exact main_trace_mono env d h

theorem main_trace_le_mount (env : Env) (d : Disk) (n : Nat) :
    (main env d n).trace <+:
      preamble ++ ((shape env.mountRet env.fopenRet).drop 6 ++
        .HalInitiateShutdown :: List.replicate (n / 2) (.Sleep 2000)) := by
  have h := main_trace_le env d n
  rw [shape_split_mount, List.append_assoc] at h
  exact h

/-! ## The claims -/

/-- C1 (end-to-end success). From any initial disk, when the mount returns
true, `fopen` returns a non-null stream and the medium accepts all 7 bytes of
the write: `main` is at the shutdown request after 19 statements and has
issued it after 20, and in every state in which the request is about to be or
has been issued, the whole content of `C:\\results\\results.txt` is the 7 bytes
`Success`, with nothing before or after them. -/
theorem C1_end_to_end_success (env : Env) (d : Disk)
    (hmount : env.mountRet = true) (hopen : env.fopenRet ≠ 0) (hwrite : 7 ≤ env.written) :
    (main env d 19).pc = .L36_HalInitiateShutdown ∧
    (main env d 20).trace.getLast? = some .HalInitiateShutdown ∧
    (∀ n, ((main env d n).pc = .L36_HalInitiateShutdown ∨
          Effect.HalInitiateShutdown ∈ (main env d n).trace) →
        (main env d n).world.disk.files "C:\\results\\results.txt" =
          some [83, 117, 99, 99, 101, 115, 115]) ∧
    cstr "Success" = [83, 117, 99, 99, 101, 115, 115] := by
  have e : shutdownAt env = 20 := by simp [shutdownAt, hmount, hopen]
  refine ⟨?_, ?_, ?_, by decide⟩
  · have := main_before_pc env d
    rwa [e] at this
  · have := main_shutdown_trace env d
    rw [e] at this
    rw [this]
    simp
  · intro n hn
    have h19 : 19 ≤ n := by
      have := shutdown_reached env d n hn
      omega
    rw [(success_world env d hmount hopen n h19).1]
    have hmin : min env.written 7 = 7 := by omega
    rw [hmin]
    decide

theorem C1_end_to_end_success_witness :
    goodEnv.mountRet = true ∧ goodEnv.fopenRet ≠ 0 ∧ 7 ≤ goodEnv.written ∧
    staleDisk.files "C:\\results\\results.txt" = some [79, 108, 100, 10] ∧
    (main goodEnv staleDisk 19).pc = .L36_HalInitiateShutdown ∧
    (main goodEnv staleDisk 19).world.disk.files "C:\\results\\results.txt" =
      some [83, 117, 99, 99, 101, 115, 115] :=
  have h := C1_end_to_end_success goodEnv staleDisk rfl (by decide) (by decide)
  ⟨rfl, by decide, by decide, by decide, h.1, h.2.2.1 19 (Or.inl h.1)⟩

/-- C2 (mount failure path). When `nxMountDrive` returns false, the complete
trace is: video mode, the two liveness messages with their delays, the mount,
the diagnostic `Failed to mount C: drive!`, the shutdown request, then idle
delays only. No trace of the run ever contains `CreateDirectoryA`, `fopen`,
`fwrite` or `fclose`, the disk stays exactly the initial disk (so no result
file is created) and no stream is ever open. -/
theorem C2_mount_failure (env : Env) (d : Disk) (hmount : env.mountRet = false) :
    (∀ m, (main env d (16 + m)).trace =
      [.XVideoSetMode 640 480 32 .REFRESH_DEFAULT,
        .debugPrint "Hello nxdk!\n", .Sleep 500, .debugPrint "Hello nxdk!\n", .Sleep 500,
        .nxMountDrive 'C' "\\Device\\Harddisk0\\Partition2\\",
        .debugPrint "Failed to mount C: drive!\n",
        .HalInitiateShutdown] ++ List.replicate (m / 2) (.Sleep 2000)) ∧
    (∀ n, ∀ e ∈ (main env d n).trace, e.isFilesystemCall = false) ∧
    (∀ n, (main env d n).world.disk = d ∧ (main env d n).world.streams = []) := by
  have e : shutdownAt env = 16 := by simp [shutdownAt, hmount]
  refine ⟨?_, ?_, ?_⟩
  · intro m
    have := main_after_trace env d m
    rw [e, hmount] at this
    rw [this]
    simp [shape, preamble]
  · intro n
    apply trace_forall env d n (fun e => e.isFilesystemCall = false) _ rfl rfl
    simp [hmount, shape, preamble, Effect.isFilesystemCall]
  · intro n
    rw [mount_fail_world env d hmount n]
    exact ⟨rfl, rfl⟩

theorem C2_mount_failure_witness :
    noMountEnv.mountRet = false ∧
    (main noMountEnv staleDisk 16).trace =
      [.XVideoSetMode 640 480 32 .REFRESH_DEFAULT,
        .debugPrint "Hello nxdk!\n", .Sleep 500, .debugPrint "Hello nxdk!\n", .Sleep 500,
        .nxMountDrive 'C' "\\Device\\Harddisk0\\Partition2\\",
        .debugPrint "Failed to mount C: drive!\n",
        .HalInitiateShutdown] ∧
    (main noMountEnv staleDisk 16).world.disk = staleDisk :=
  have h := C2_mount_failure noMountEnv staleDisk rfl
  ⟨rfl, by simpa using h.1 0, (h.2.2 16).1⟩

/-- C3 (file open failure path). When the mount succeeds and `fopen` returns
`NULL`, the complete trace is: video mode, the two liveness messages with their
delays, the mount, `CreateDirectoryA`, the failed `fopen`, the shutdown
request, then idle delays only. Every `debugPrint` of the run is one of the
(at most two) liveness messages, `fwrite` and `fclose` never occur, and the
content of every file, the result file included, stays what it was before the
run. -/
theorem C3_open_failure (env : Env) (d : Disk)
    (hmount : env.mountRet = true) (hopen : env.fopenRet = 0) :
    (∀ m, (main env d (18 + m)).trace =
      [.XVideoSetMode 640 480 32 .REFRESH_DEFAULT,
        .debugPrint "Hello nxdk!\n", .Sleep 500, .debugPrint "Hello nxdk!\n", .Sleep 500,
        .nxMountDrive 'C' "\\Device\\Harddisk0\\Partition2\\",
        .CreateDirectoryA "C:\\results" 0,
        .fopen "C:\\results\\results.txt" "w",
        .HalInitiateShutdown] ++ List.replicate (m / 2) (.Sleep 2000)) ∧
    (∀ n, (∀ e ∈ (main env d n).trace, e.isDebugPrint = true → e = .debugPrint "Hello nxdk!\n") ∧
      (main env d n).trace.countP Effect.isDebugPrint ≤ 2) ∧
    (∀ n, ∀ e ∈ (main env d n).trace, e.isFwrite = false ∧ e.isFclose = false) ∧
    (∀ n, (main env d n).world.disk.files = d.files ∧
      (main env d n).world.disk.files "C:\\results\\results.txt" =
        d.files "C:\\results\\results.txt") := by
  have e : shutdownAt env = 18 := by simp [shutdownAt, hmount, hopen]
  refine ⟨?_, ?_, ?_, ?_⟩
  · intro m
    have := main_after_trace env d m
    rw [e, hmount, hopen] at this
    rw [this]
    simp [shape, preamble]
  · intro n
    constructor
    · apply trace_forall env d n
        (fun e => e.isDebugPrint = true → e = .debugPrint "Hello nxdk!\n") _
        (by simp [Effect.isDebugPrint]) (by simp [Effect.isDebugPrint])
      simp [hmount, hopen, shape, preamble, Effect.isDebugPrint]
    · have h := (main_trace_le env d n).sublist.countP_le Effect.isDebugPrint
      rw [hmount, hopen] at h
      refine h.trans ?_
      simp [shape, preamble, List.countP_cons, List.countP_replicate, Effect.isDebugPrint]
  · intro n
    apply trace_forall env d n (fun e => e.isFwrite = false ∧ e.isFclose = false) _
      ⟨rfl, rfl⟩ ⟨rfl, rfl⟩
    simp [hmount, hopen, shape, preamble, Effect.isFwrite, Effect.isFclose]
  · intro n
    have h := (open_fail_world env d hmount hopen n).1
    exact ⟨h, by rw [h]⟩

theorem C3_open_failure_witness :
    noOpenEnv.mountRet = true ∧ noOpenEnv.fopenRet = 0 ∧
    (main noOpenEnv staleDisk 18).trace =
      [.XVideoSetMode 640 480 32 .REFRESH_DEFAULT,
        .debugPrint "Hello nxdk!\n", .Sleep 500, .debugPrint "Hello nxdk!\n", .Sleep 500,
        .nxMountDrive 'C' "\\Device\\Harddisk0\\Partition2\\",
        .CreateDirectoryA "C:\\results" 0,
        .fopen "C:\\results\\results.txt" "w",
        .HalInitiateShutdown] ∧
    (main noOpenEnv staleDisk 18).world.disk.files "C:\\results\\results.txt" =
      some [79, 108, 100, 10] :=
  have h := C3_open_failure noOpenEnv staleDisk rfl rfl
  ⟨rfl, rfl, by simpa using h.1 0, (h.2.2.2 18).2.trans (by decide)⟩

/-- C4 (diagnostic count and order). On every run and at every moment of it,
whatever the mount and open results: the message `Hello nxdk!` occurs at most
twice in the trace, and exactly twice once nine statements have run, when the
trace starts with video mode, message, `Sleep(500)`, message, `Sleep(500)`;
whenever a call follows an emission of the message it is `Sleep(500)`; and
every storage call (`nxMountDrive`, `CreateDirectoryA`, `fopen`, `fwrite`,
`fclose`) stands after those five calls. -/
theorem C4_diagnostic_count_and_order (env : Env) (d : Disk) (n : Nat) :
    (main env d n).trace.count (.debugPrint "Hello nxdk!\n") ≤ 2 ∧
    (9 ≤ n →
      (main env d n).trace.count (.debugPrint "Hello nxdk!\n") = 2 ∧
      (main env d n).trace.take 5 =
        [.XVideoSetMode 640 480 32 .REFRESH_DEFAULT,
          .debugPrint "Hello nxdk!\n", .Sleep 500,
          .debugPrint "Hello nxdk!\n", .Sleep 500]) ∧
    (∀ j, (main env d n).trace[j]? = some (.debugPrint "Hello nxdk!\n") →
      j + 1 < (main env d n).trace.length →
      (main env d n).trace[j + 1]? = some (.Sleep 500)) ∧
    (∀ j e, (main env d n).trace[j]? = some e → e.isStorageCall = true → 5 ≤ j) := by
  have hle := main_trace_le_split env d n
  have hcount : (main env d n).trace.count (.debugPrint "Hello nxdk!\n") ≤ 2 := by
    refine (hle.sublist.count_le _).trans ?_
    rw [List.count_append, List.count_eq_zero_of_not_mem (hello_not_mem_rest _ _ _)]
    decide
  refine ⟨hcount, ?_, ?_, ?_⟩
  · intro h9
    obtain ⟨r, hr⟩ := liveness_le env d h9
    constructor
    · apply le_antisymm hcount
      rw [← hr, List.count_append]
      have : List.count (Effect.debugPrint "Hello nxdk!\n") liveness = 2 := by decide
      omega
    · rw [← hr]
      exact List.take_left' rfl
  · intro j hj hlen
    have hfull := getElem?_of_initial hle hj
    have hj5 : j < 5 := by
      by_contra hge
      rw [List.getElem?_append_right (by simpa [liveness] using hge)] at hfull
      exact hello_not_mem_rest _ _ _ (List.getElem?_mem hfull)
    rw [getElem?_initial_eq hle hlen]
    rw [List.getElem?_append_left (by simpa [liveness] using hj5)] at hfull
    have hj13 : j = 1 ∨ j = 3 := by
      interval_cases j <;> simp [liveness] at hfull <;> simp
    rcases hj13 with rfl | rfl <;>
      rw [List.getElem?_append_left (by simp [liveness])] <;> rfl
  · intro j e hj hs
    have hfull := getElem?_of_initial hle hj
    by_contra hlt
    rw [List.getElem?_append_left (by simpa [liveness] using hlt)] at hfull
    have := storage_mem_liveness e (List.getElem?_mem hfull)
    rw [this] at hs
    exact Bool.noConfusion hs

theorem C4_diagnostic_count_and_order_witness :
    (main noMountEnv staleDisk 9).trace.count (.debugPrint "Hello nxdk!\n") = 2 ∧
    (main noMountEnv staleDisk 9).trace.take 5 =
      [.XVideoSetMode 640 480 32 .REFRESH_DEFAULT,
        .debugPrint "Hello nxdk!\n", .Sleep 500,
        .debugPrint "Hello nxdk!\n", .Sleep 500] :=
  (C4_diagnostic_count_and_order noMountEnv staleDisk 9).2.1 (by decide)

/-- C5 (terminal behaviour). On every run and at every moment of it: every
call that stands after the `HalInitiateShutdown` request in the trace is a
`Sleep(2000)`; the machine is never at `return 0`, has never returned and has
no exit code. The request is made, and the idle delays keep coming: `2 * n`
statements after it the trace ends with the request followed by `n` delays. -/
theorem C5_terminal_behaviour (env : Env) (d : Disk) (n : Nat) :
    (∀ pre post, (main env d n).trace = pre ++ .HalInitiateShutdown :: post →
      ∀ e ∈ post, e = .Sleep 2000) ∧
    ((main env d n).pc ≠ .L41_return ∧ (main env d n).pc ≠ .returned ∧
      (main env d n).exitCode = none) ∧
    (main env d (shutdownAt env + 2 * n)).trace =
      shape env.mountRet env.fopenRet ++
        .HalInitiateShutdown :: List.replicate n (.Sleep 2000) := by
  refine ⟨?_, main_alive env d n, ?_⟩
  · intro pre post hsplit e he
    obtain ⟨r, hr⟩ := main_trace_le env d n
    rw [hsplit, List.append_assoc, List.cons_append] at hr
    have hR : Effect.HalInitiateShutdown ∉ List.replicate (n / 2) (Effect.Sleep 2000) := by
      intro hmem
      exact Effect.noConfusion (List.eq_of_mem_replicate hmem)
    have := (split_unique (shutdown_not_mem_shape _ _) hR hr).2
    exact List.eq_of_mem_replicate (this ▸ List.mem_append_left r he)
  · rw [main_after_trace]
    simp

theorem C5_terminal_behaviour_witness :
    (main goodEnv staleDisk 3).pc ≠ .returned ∧
    (main goodEnv staleDisk (20 + 2 * 3)).trace =
      shape true 4096 ++ [.HalInitiateShutdown, .Sleep 2000, .Sleep 2000, .Sleep 2000] :=
  ⟨(C5_terminal_behaviour goodEnv staleDisk 3).2.1.2.1,
    (C5_terminal_behaviour goodEnv staleDisk 3).2.2⟩

/-- C6 (all paths converge on shutdown). For every combination of platform
results (mount, directory creation, open, complete or short write): the
shutdown request is made by statement `shutdownAt env`, which is at most 20;
the trace holds no request before that statement and exactly one from it on;
the trace at the request has at most 11 calls and ends with the request; and
from then on the machine is in the idle loop, at `while (1)` or at its
`Sleep(2000)`. -/
theorem C6_all_paths_converge (env : Env) (d : Disk) :
    shutdownAt env ≤ 20 ∧
    (∀ n, (main env d n).trace.count .HalInitiateShutdown =
      if n < shutdownAt env then 0 else 1) ∧
    (main env d (shutdownAt env - 1)).pc = .L36_HalInitiateShutdown ∧
    (main env d (shutdownAt env)).trace.getLast? = some .HalInitiateShutdown ∧
    (main env d (shutdownAt env)).trace.length ≤ 11 ∧
    (∀ m, (main env d (shutdownAt env + m)).pc = .L37_while ∨
      (main env d (shutdownAt env + m)).pc = .L38_Sleep) := by
  refine ⟨?_, ?_, main_before_pc env d, ?_, ?_, ?_⟩
  · unfold shutdownAt
    split <;> (try split) <;> simp
  · intro n
    split
    · next h =>
      have := (main_trace_early env d h).sublist.count_le .HalInitiateShutdown
      rw [shutdown_count_shape] at this
      omega
    · next h =>
      obtain ⟨m, rfl⟩ := Nat.exists_eq_add_of_le (Nat.le_of_not_lt h)
      rw [main_after_trace, List.count_append, shutdown_count_shape, List.count_cons_self,
        List.count_replicate]
      simp
  · rw [main_shutdown_trace]
    simp
  · rw [main_shutdown_trace]
    have := shape_length_le env.mountRet env.fopenRet
    simp
    omega
  · intro m
    rw [main_after]
    by_cases h : m % 2 = 0 <;> simp [h]

theorem C6_all_paths_converge_witness :
    (main noMountEnv staleDisk 15).trace.count .HalInitiateShutdown = 0 ∧
    (main noMountEnv staleDisk 40).trace.count .HalInitiateShutdown = 1 ∧
    (main noMountEnv staleDisk 15).pc = .L36_HalInitiateShutdown :=
  ⟨(C6_all_paths_converge noMountEnv staleDisk).2.1 15,
    (C6_all_paths_converge noMountEnv staleDisk).2.1 40,
    (C6_all_paths_converge noMountEnv staleDisk).2.2.1⟩

/-- C7 (directory idempotence). Take a run `env` on a disk `d` without the
results directory, where the mount succeeds, the directory can be created and
the open succeeds, and a run `env'` with the same mount, open and write results
(and any directory-creation outcome). Then: in the first run
`CreateDirectoryA` returns true; on every disk `d'` that already has the
directory it returns false in the second run, yet the two runs have the same
trace at every moment and the same result-file content from the shutdown
request on. In particular the disk left by the first run has the directory,
and when the write is complete both the first run and a second run started on
that disk leave exactly `Success` in the result file. -/
theorem C7_directory_idempotence (env env' : Env) (d : Disk)
    (hmount : env.mountRet = true) (hopen : env.fopenRet ≠ 0)
    (habsent : d.dirs "C:\\results" = false) (hmk : env.mkdirOk = true)
    (hm : env'.mountRet = env.mountRet) (hp : env'.fopenRet = env.fopenRet)
    (hw : env'.written = env.written) :
    ((main env d 13).pc = .L24_CreateDirectoryA ∧
      (CreateDirectoryA env (main env d 13).world "C:\\results" 0).2 = true) ∧
    (∀ d' : Disk, d'.dirs "C:\\results" = true →
      ((main env' d' 13).pc = .L24_CreateDirectoryA ∧
        (CreateDirectoryA env' (main env' d' 13).world "C:\\results" 0).2 = false) ∧
      (∀ n, (main env' d' n).trace = (main env d n).trace) ∧
      (∀ n, 19 ≤ n → (main env' d' n).world.disk.files "C:\\results\\results.txt" =
        (main env d n).world.disk.files "C:\\results\\results.txt")) ∧
    (main env d 20).world.disk.dirs "C:\\results" = true ∧
    (7 ≤ env.written → ∀ n, 19 ≤ n →
      (main env d n).world.disk.files "C:\\results\\results.txt" =
        some [83, 117, 99, 99, 101, 115, 115] ∧
      (main env' (main env d 20).world.disk n).world.disk.files "C:\\results\\results.txt" =
        some [83, 117, 99, 99, 101, 115, 115]) := by
  have hmount' : env'.mountRet = true := hm.trans hmount
  have hopen' : env'.fopenRet ≠ 0 := by rw [hp]; exact hopen
  refine ⟨?_, ?_, ?_, ?_⟩
  · obtain ⟨hpc, hd⟩ := at_CreateDirectoryA env d hmount
    refine ⟨hpc, ?_⟩
    simp [CreateDirectoryA, hd, habsent, hmk]
  · intro d' hpresent
    refine ⟨?_, trace_eq_of_same env env' d d' hm hp, ?_⟩
    · obtain ⟨hpc, hd⟩ := at_CreateDirectoryA env' d' hmount'
      refine ⟨hpc, ?_⟩
      simp [CreateDirectoryA, hd, hpresent]
    · intro n hn
      rw [(success_world env d hmount hopen n hn).1,
        (success_world env' d' hmount' hopen' n hn).1, hw]
  · rw [success_dirs env d hmount hopen, hmk]
    simp
  · intro hwrite n hn
    have hmin : min env.written 7 = 7 := by omega
    have hmin' : min env'.written 7 = 7 := by omega
    rw [(success_world env d hmount hopen n hn).1,
      (success_world env' _ hmount' hopen' n hn).1, hmin, hmin']
    exact ⟨by decide, by decide⟩

theorem C7_directory_idempotence_witness :
    (goodEnv.mountRet = true ∧ goodEnv.fopenRet ≠ 0 ∧
      staleDisk.dirs "C:\\results" = false ∧ goodEnv.mkdirOk = true ∧
      secondEnv.mountRet = goodEnv.mountRet ∧ secondEnv.fopenRet = goodEnv.fopenRet ∧
      secondEnv.written = goodEnv.written) ∧
    (main goodEnv staleDisk 20).world.disk.dirs "C:\\results" = true ∧
    (main secondEnv (main goodEnv staleDisk 20).world.disk 20).trace =
      (main goodEnv staleDisk 20).trace ∧
    (main secondEnv (main goodEnv staleDisk 20).world.disk 20).world.disk.files
      "C:\\results\\results.txt" = some [83, 117, 99, 99, 101, 115, 115] :=
  have h := C7_directory_idempotence goodEnv secondEnv staleDisk rfl (by decide) rfl rfl
    rfl rfl rfl
  ⟨⟨rfl, by decide, rfl, rfl, rfl, rfl, rfl⟩, h.2.2.1,
    (h.2.1 _ h.2.2.1).2.1 20, (h.2.2.2 (by decide) 20 (by decide)).2⟩

/-- C8 (file handle lifecycle). On every run: `fclose` and `fwrite` occur at
most once in any trace, and from the shutdown request on each occurs exactly
once when the mount succeeded and `fopen` returned a non-null stream, and not
at all otherwise. In that case the calls `fopen`, `fwrite`, `fclose` stand in
this order, next to each other, with the stream returned by `fopen`; the stream
is open until the `fclose` and released by it. On every path no stream is open
when the shutdown request is about to be made or has been made. -/
theorem C8_file_handle_lifecycle (env : Env) (d : Disk) :
    (∀ n, (main env d n).trace.countP Effect.isFclose ≤ 1 ∧
      (main env d n).trace.countP Effect.isFwrite ≤ 1) ∧
    (∀ m, (main env d (shutdownAt env + m)).trace.countP Effect.isFclose =
        (if env.mountRet = true ∧ env.fopenRet ≠ 0 then 1 else 0) ∧
      (main env d (shutdownAt env + m)).trace.countP Effect.isFwrite =
        (if env.mountRet = true ∧ env.fopenRet ≠ 0 then 1 else 0)) ∧
    (env.mountRet = true → env.fopenRet ≠ 0 →
      (∀ m, (main env d (20 + m)).trace =
        [.XVideoSetMode 640 480 32 .REFRESH_DEFAULT,
          .debugPrint "Hello nxdk!\n", .Sleep 500, .debugPrint "Hello nxdk!\n", .Sleep 500,
          .nxMountDrive 'C' "\\Device\\Harddisk0\\Partition2\\",
          .CreateDirectoryA "C:\\results" 0,
          .fopen "C:\\results\\results.txt" "w",
          .fwrite [83, 117, 99, 99, 101, 115, 115] 7 1 env.fopenRet,
          .fclose env.fopenRet,
          .HalInitiateShutdown] ++ List.replicate (m / 2) (.Sleep 2000)) ∧
      (main env d 18).pc = .L33_fclose ∧
      (main env d 18).world.streams = [(env.fopenRet, "C:\\results\\results.txt")] ∧
      (main env d 19).world.streams = []) ∧
    (∀ n, ((main env d n).pc = .L36_HalInitiateShutdown ∨
        Effect.HalInitiateShutdown ∈ (main env d n).trace) →
      (main env d n).world.streams = []) := by
  have hidle : ∀ k, List.countP Effect.isFclose (List.replicate k (Effect.Sleep 2000)) = 0 ∧
      List.countP Effect.isFwrite (List.replicate k (Effect.Sleep 2000)) = 0 := by
    intro k
    simp [List.countP_replicate, Effect.isFclose, Effect.isFwrite]
  have hfull : ∀ k, List.countP Effect.isFclose (shape env.mountRet env.fopenRet ++
        .HalInitiateShutdown :: List.replicate k (.Sleep 2000)) =
        (if env.mountRet = true ∧ env.fopenRet ≠ 0 then 1 else 0) ∧
      List.countP Effect.isFwrite (shape env.mountRet env.fopenRet ++
        .HalInitiateShutdown :: List.replicate k (.Sleep 2000)) =
        (if env.mountRet = true ∧ env.fopenRet ≠ 0 then 1 else 0) := by
    intro k
    rw [List.countP_append, List.countP_append, fclose_count_shape, fwrite_count_shape,
      List.countP_cons, List.countP_cons, (hidle k).1, (hidle k).2]
    simp [Effect.isFclose, Effect.isFwrite]
  refine ⟨?_, ?_, ?_, ?_⟩
  · intro n
    have h1 := (main_trace_le env d n).sublist.countP_le Effect.isFclose
    have h2 := (main_trace_le env d n).sublist.countP_le Effect.isFwrite
    rw [(hfull _).1] at h1
    rw [(hfull _).2] at h2
    constructor
    · refine h1.trans ?_
      split <;> simp
    · refine h2.trans ?_
      split <;> simp
  · intro m
    rw [main_after_trace]
    exact hfull _
  · intro hmount hopen
    have e : shutdownAt env = 20 := by simp [shutdownAt, hmount, hopen]
    refine ⟨?_, ?_, ?_, ?_⟩
    · intro m
      have := main_after_trace env d m
      rw [e, hmount] at this
      rw [this]
      simp [shape, preamble, hopen]
    · obtain ⟨m, k, p, w⟩ := env
      simp only at hmount hopen
      subst hmount
      simp [main, run, step, boot, State.call, nxMountDrive, fopen, hopen]
    · obtain ⟨m, k, p, w⟩ := env
      simp only at hmount hopen
      subst hmount
      simp [main, run, step, boot, State.call, nxMountDrive, fopen, hopen, fwrite,
        CreateDirectoryA, List.lookup]
      split <;> (try split) <;> simp
    · exact (success_world env d hmount hopen 19 (le_refl _)).2
  · intro n hn
    exact streams_closed env d n (shutdown_reached env d n hn)

theorem C8_file_handle_lifecycle_witness :
    (main goodEnv staleDisk 18).world.streams = [(4096, "C:\\results\\results.txt")] ∧
    (main goodEnv staleDisk 19).world.streams = [] ∧
    (main goodEnv staleDisk 20).trace.countP Effect.isFclose = 1 ∧
    (main noOpenEnv staleDisk 18).trace.countP Effect.isFclose = 0 :=
  ⟨((C8_file_handle_lifecycle goodEnv staleDisk).2.2.1 rfl (by decide)).2.2.1,
    ((C8_file_handle_lifecycle goodEnv staleDisk).2.2.1 rfl (by decide)).2.2.2,
    ((C8_file_handle_lifecycle goodEnv staleDisk).2.1 0).1,
    ((C8_file_handle_lifecycle noOpenEnv staleDisk).2.1 0).1⟩

/-- C9 (single mount attempt). On every run and at every moment of it,
whatever the platform answers: the trace holds at most one `nxMountDrive`, and
exactly one once twelve statements have run, as its sixth call; every
`nxMountDrive` in the trace has drive letter `C` and device path
`\\Device\\Harddisk0\\Partition2\\`; and every filesystem call
(`CreateDirectoryA`, `fopen`, `fwrite`, `fclose`) stands after it. Since this
holds when the mount returns false too, a failed mount is not retried. -/
theorem C9_single_mount_attempt (env : Env) (d : Disk) (n : Nat) :
    (main env d n).trace.countP Effect.isMount ≤ 1 ∧
    (12 ≤ n →
      (main env d n).trace.countP Effect.isMount = 1 ∧
      (main env d n).trace[5]? =
        some (.nxMountDrive 'C' "\\Device\\Harddisk0\\Partition2\\")) ∧
    (∀ e ∈ (main env d n).trace, e.isMount = true →
      e = .nxMountDrive 'C' "\\Device\\Harddisk0\\Partition2\\") ∧
    (∀ j e, (main env d n).trace[j]? = some e → e.isFilesystemCall = true → 5 < j) := by
  have hle := main_trace_le_mount env d n
  have hrest := mount_not_mem_rest env.mountRet env.fopenRet (n / 2)
  have hcount : (main env d n).trace.countP Effect.isMount ≤ 1 := by
    refine (hle.sublist.countP_le _).trans ?_
    have hz : List.countP Effect.isMount ((shape env.mountRet env.fopenRet).drop 6 ++
        .HalInitiateShutdown :: List.replicate (n / 2) (.Sleep 2000)) = 0 :=
      List.countP_eq_zero.mpr (fun e he => by simp [hrest e he])
    rw [List.countP_append, hz]
    decide
  refine ⟨hcount, ?_, ?_, ?_⟩
  · intro h12
    obtain ⟨r, hr⟩ := preamble_le env d h12
    constructor
    · apply le_antisymm hcount
      rw [← hr, List.countP_append]
      have : List.countP Effect.isMount preamble = 1 := by decide
      omega
    · rw [← hr, List.getElem?_append_left (by simp [preamble])]
      rfl
  · intro e he hmnt
    rcases List.mem_append.mp (hle.subset he) with h | h
    · simp only [preamble, List.mem_cons, List.mem_singleton, List.not_mem_nil, or_false] at h
      rcases h with h | h | h | h | h | h <;> subst h <;>
        first | rfl | exact Bool.noConfusion hmnt
    · rw [hrest e h] at hmnt
      exact Bool.noConfusion hmnt
  · intro j e hj hs
    have hfull := getElem?_of_initial hle hj
    by_contra hlt
    rw [List.getElem?_append_left (by simp [preamble]; omega)] at hfull
    have := filesystem_mem_preamble e (List.getElem?_mem hfull)
    rw [this] at hs
    exact Bool.noConfusion hs

theorem C9_single_mount_attempt_witness :
    (main noMountEnv staleDisk 30).trace.countP Effect.isMount = 1 ∧
    (main noMountEnv staleDisk 30).trace[5]? =
      some (.nxMountDrive 'C' "\\Device\\Harddisk0\\Partition2\\") :=
  (C9_single_mount_attempt noMountEnv staleDisk 30).2.1 (by decide)

/-- C10 (footprint of the two failure paths; three trace shapes). The trace up
to and including the shutdown request is one of three lists, chosen by the
mount result and by whether `fopen` returned `NULL`, and any two runs with the
same mount result and the same `fopen` result have the same trace at every
moment. When the mount fails no filesystem call is ever made and the disk is
unchanged. When the mount succeeds and the open fails, `CreateDirectoryA` has
been requested once, right before the failed `fopen`: the results directory
exists afterwards if it existed before or could be created, while no file has
changed. -/
theorem C10_failure_footprints (env : Env) (d : Disk) :
    (env.mountRet = false →
      (main env d 16).trace =
        [.XVideoSetMode 640 480 32 .REFRESH_DEFAULT,
          .debugPrint "Hello nxdk!\n", .Sleep 500, .debugPrint "Hello nxdk!\n", .Sleep 500,
          .nxMountDrive 'C' "\\Device\\Harddisk0\\Partition2\\",
          .debugPrint "Failed to mount C: drive!\n",
          .HalInitiateShutdown] ∧
      (∀ n, (∀ e ∈ (main env d n).trace, e.isFilesystemCall = false) ∧
        (main env d n).world.disk = d)) ∧
    (env.mountRet = true → env.fopenRet = 0 →
      (main env d 18).trace =
        [.XVideoSetMode 640 480 32 .REFRESH_DEFAULT,
          .debugPrint "Hello nxdk!\n", .Sleep 500, .debugPrint "Hello nxdk!\n", .Sleep 500,
          .nxMountDrive 'C' "\\Device\\Harddisk0\\Partition2\\",
          .CreateDirectoryA "C:\\results" 0,
          .fopen "C:\\results\\results.txt" "w",
          .HalInitiateShutdown] ∧
      (∀ n, 18 ≤ n →
        (main env d n).trace.count (.CreateDirectoryA "C:\\results" 0) = 1 ∧
        (main env d n).world.disk.dirs "C:\\results" =
          (d.dirs "C:\\results" || env.mkdirOk) ∧
        (main env d n).world.disk.files = d.files)) ∧
    (env.mountRet = true → env.fopenRet ≠ 0 →
      (main env d 20).trace =
        [.XVideoSetMode 640 480 32 .REFRESH_DEFAULT,
          .debugPrint "Hello nxdk!\n", .Sleep 500, .debugPrint "Hello nxdk!\n", .Sleep 500,
          .nxMountDrive 'C' "\\Device\\Harddisk0\\Partition2\\",
          .CreateDirectoryA "C:\\results" 0,
          .fopen "C:\\results\\results.txt" "w",
          .fwrite [83, 117, 99, 99, 101, 115, 115] 7 1 env.fopenRet,
          .fclose env.fopenRet,
          .HalInitiateShutdown]) ∧
    (∀ (env' : Env) (d' : Disk), env'.mountRet = env.mountRet →
      env'.fopenRet = env.fopenRet → ∀ n, (main env' d' n).trace = (main env d n).trace) := by
  refine ⟨?_, ?_, ?_, ?_⟩
  · intro hmount
    have e : shutdownAt env = 16 := by simp [shutdownAt, hmount]
    refine ⟨?_, ?_⟩
    · have := main_shutdown_trace env d
      rw [e, hmount] at this
      rw [this]
      simp [shape, preamble]
    · intro n
      constructor
      · apply trace_forall env d n (fun e => e.isFilesystemCall = false) _ rfl rfl
        simp [hmount, shape, preamble, Effect.isFilesystemCall]
      · rw [mount_fail_world env d hmount n]
        rfl
  · intro hmount hopen
    have e : shutdownAt env = 18 := by simp [shutdownAt, hmount, hopen]
    refine ⟨?_, ?_⟩
    · have := main_shutdown_trace env d
      rw [e, hmount, hopen] at this
      rw [this]
      simp [shape, preamble]
    · intro n hn
      have hw := open_fail_world env d hmount hopen n
      refine ⟨?_, hw.2.2 (by omega), hw.1⟩
      obtain ⟨j, rfl⟩ := Nat.exists_eq_add_of_le hn
      have := main_after_trace env d j
      rw [e, hmount, hopen] at this
      rw [this]
      simp [shape, preamble, List.count_cons, List.count_replicate]
  · intro hmount hopen
    have e : shutdownAt env = 20 := by simp [shutdownAt, hmount, hopen]
    have := main_shutdown_trace env d
    rw [e, hmount] at this
    rw [this]
    simp [shape, preamble, hopen]
  · intro env' d' hm hp n
    exact trace_eq_of_same env env' d d' hm hp n

theorem C10_failure_footprints_witness :
    (noOpenEnv.mountRet = true ∧ noOpenEnv.fopenRet = 0) ∧
    (main noOpenEnv staleDisk 18).world.disk.dirs "C:\\results" = true ∧
    (main noOpenEnv staleDisk 18).world.disk.files = staleDisk.files ∧
    (main noMountEnv staleDisk 16).world.disk = staleDisk :=
  have h := C10_failure_footprints noOpenEnv staleDisk
  ⟨⟨rfl, rfl⟩, ((h.2.1 rfl rfl).2 18 (by decide)).2.1, ((h.2.1 rfl rfl).2 18 (by decide)).2.2,
    (((C10_failure_footprints noMountEnv staleDisk).1 rfl).2 16).2⟩

end XemuTest
